import Mathlib

/-!
Shallow embedding of the mender-mcp security core and API-client control flow.

Strings are modelled as List Char. Regex-driven substitution (re.sub) is
modelled by a left-to-right scanner: at each position a matcher either
consumes at least one character and emits a replacement, or the character is
copied. Word boundaries are tracked through the previous character of the
original input, exactly as the regex engine sees them.
-/

set_option maxRecDepth 10000

/-- ASCII word character, the class matched by a backslash-w and used by
word boundaries: letters, digits and underscore. -/
def isWordChar (c : Char) : Bool := c.isAlphanum || c = '_'

/-- Character class of the JWT and Bearer token patterns: [a-zA-Z0-9._-]. -/
def isJwtChar (c : Char) : Bool := c.isAlphanum || c = '.' || c = '_' || c = '-'

/-- Character class of the Basic credentials pattern: [a-zA-Z0-9+/=]. -/
def isBasicChar (c : Char) : Bool := c.isAlphanum || c = '+' || c = '/' || c = '='

/-- Plain ASCII alphanumeric, the class [a-zA-Z0-9]. -/
def isAlnumChar (c : Char) : Bool := c.isAlphanum

/-- Python regex whitespace class (backslash-s, ASCII part). -/
def isPySpace (c : Char) : Bool :=
  c = ' ' || c = '\t' || c = '\n' || c = '\r' || c = Char.ofNat 11 || c = Char.ofNat 12

/-- Value class of the generic secret-assignment rule: any character that is
not whitespace and not a quote. -/
def isSecretValChar (c : Char) : Bool :=
  !(isPySpace c) && !(c = Char.ofNat 39) && !(c = '"')

/-- Identifier class of the device and deployment id validators:
[a-zA-Z0-9-_.]. -/
def isIdChar (c : Char) : Bool := c.isAlphanum || c = '-' || c = '_' || c = '.'

/-- The ASCII single quote character. -/
def squote : Char := Char.ofNat 39

/-- Substring test, the semantics of the Python expression (needle in hay). -/
def pyContains (n h : List Char) : Bool :=
  (List.range (h.length + 1)).any (fun i => ((h.drop i).take n.length) == n)

/-- Lower-casing of a string, the semantics of str.lower for ASCII input. -/
def lowerList (l : List Char) : List Char := l.map Char.toLower

/-- Fuelled scanner implementing the re.sub traversal for one rule. The rule
receives the word-character status of the previous input character and the
remaining input; on a match it returns the number of consumed characters
minus one together with the replacement text. Replacements are emitted but
never rescanned, and boundary tracking always follows the original input. -/
def reSubF (rule : Bool → List Char → Option (Nat × List Char)) :
    Nat → Bool → List Char → List Char
  | 0, _, l => l
  | _ + 1, _, [] => []
  | f + 1, prevW, c :: cs =>
    match rule prevW (c :: cs) with
    | some (n, repl) => repl ++ reSubF rule f (isWordChar ((c :: cs).getD n ' ')) (cs.drop n)
    | none => c :: reSubF rule f (isWordChar c) cs

/-- One global re.sub pass of a rule over the input. -/
def reSub (rule : Bool → List Char → Option (Nat × List Char))
    (p : Bool) (l : List Char) : List Char :=
  reSubF rule l.length p l

/-- Case-insensitive literal head match: on success returns the matched
original characters and the remaining input. The pattern is given in lower
case. -/
def ciHead (pat l : List Char) : Option (List Char × List Char) :=
  if (l.take pat.length).map Char.toLower == pat then
    some (l.take pat.length, l.drop pat.length)
  else none

/-- Rule 1 of sanitize_message, the pattern matching a word boundary, the
literal eyJ and a nonempty run of token characters, replaced by the fixed
placeholder. -/
def tryJwt (prevW : Bool) (l : List Char) : Option (Nat × List Char) :=
  if prevW then none else
  match l with
  | 'e' :: 'y' :: 'J' :: rest =>
    let run := rest.takeWhile isJwtChar
    if run = [] then none else some (run.length + 2, "[JWT_TOKEN]".data)
  | _ => none

/-- Rule 2 of sanitize_message, a word-bounded bare alphanumeric run of
length at least 32. The trailing boundary fails exactly when the maximal run
is followed by an underscore. -/
def tryLongRun (prevW : Bool) (l : List Char) : Option (Nat × List Char) :=
  if prevW then none else
  let run := l.takeWhile isAlnumChar
  if run.length < 32 then none
  else
    match l.drop run.length with
    | [] => some (run.length - 1, "[API_KEY]".data)
    | d :: _ => if isWordChar d then none else some (run.length - 1, "[API_KEY]".data)

/-- Group alternation of rule 3: key, or api followed by an optional hyphen
or underscore and key, case-insensitively. The alternatives have distinct
first letters, so no backtracking across alternatives is possible. -/
def tryKeyGroup (l : List Char) : Option (List Char × List Char) :=
  match ciHead "key".data l with
  | some g => some g
  | none =>
    match ciHead "api".data l with
    | none => none
    | some (g1, r1) =>
      match r1 with
      | [] => none
      | c :: r2 =>
        if c = '-' || c = '_' then
          match ciHead "key".data r2 with
          | some (g2, r3) => some (g1 ++ c :: g2, r3)
          | none => none
        else
          match ciHead "key".data r1 with
          | some (g2, r3) => some (g1 ++ g2, r3)
          | none => none

/-- Group alternation of rule 7: password, secret, key or token,
case-insensitively, in the source order of the pattern. -/
def trySecretGroup (l : List Char) : Option (List Char × List Char) :=
  match ciHead "password".data l with
  | some g => some g
  | none =>
    match ciHead "secret".data l with
    | some g => some g
    | none =>
      match ciHead "key".data l with
      | some g => some g
      | none => ciHead "token".data l

/-- Shared tail of the assignment rules: optional whitespace, a colon or an
equals sign, optional whitespace, then a value run of at least minLen
characters of the given class. The replacement preserves the matched group
and rewrites the separator to an equals sign, as the source replacement
patterns do. -/
def tryAssign (groupOf : List Char → Option (List Char × List Char))
    (valChar : Char → Bool) (minLen : Nat) (tag : List Char)
    (l : List Char) : Option (Nat × List Char) :=
  match groupOf l with
  | none => none
  | some (g, r) =>
    let w1 := r.takeWhile isPySpace
    match r.drop w1.length with
    | [] => none
    | c :: r2 =>
      if c = ':' || c = '=' then
        let w2 := r2.takeWhile isPySpace
        let run := (r2.drop w2.length).takeWhile valChar
        if run.length < minLen then none
        else some (g.length + w1.length + w2.length + run.length, g ++ "=".data ++ tag)
      else none

/-- Rule 3 of sanitize_message: a key or api-key assignment whose value is an
alphanumeric run of at least 16 characters. -/
def tryKeyAssign (_p : Bool) (l : List Char) : Option (Nat × List Char) :=
  tryAssign tryKeyGroup isAlnumChar 16 "[API_KEY]".data l

/-- Rule 7 of sanitize_message: a password, secret, key or token assignment
with a nonempty unquoted value run. -/
def trySecretAssign (_p : Bool) (l : List Char) : Option (Nat × List Char) :=
  tryAssign trySecretGroup isSecretValChar 1 "[REDACTED]".data l

/-- Shared shape of rules 4 and 5: a case-sensitive scheme word, mandatory
whitespace, then a nonempty token run of the given class; replaced by the
scheme, a space and the tag. -/
def trySchemeToken (scheme : List Char) (cls : Char → Bool) (tag : List Char)
    (l : List Char) : Option (Nat × List Char) :=
  if l.take scheme.length == scheme then
    let r := l.drop scheme.length
    let ws := r.takeWhile isPySpace
    if ws.length = 0 then none else
    let run := (r.drop ws.length).takeWhile cls
    if run.length = 0 then none
    else some (scheme.length - 1 + ws.length + run.length, scheme ++ " ".data ++ tag)
  else none

/-- Rule 4 of sanitize_message: a Bearer header value. -/
def tryBearer (_p : Bool) (l : List Char) : Option (Nat × List Char) :=
  trySchemeToken "Bearer".data isJwtChar "[TOKEN]".data l

/-- Rule 5 of sanitize_message: a Basic header value. -/
def tryBasic (_p : Bool) (l : List Char) : Option (Nat × List Char) :=
  trySchemeToken "Basic".data isBasicChar "[CREDENTIALS]".data l

/-- Rule 6 of sanitize_message: embedded URL credentials, the pattern
matching ://, a nonempty colon-free run, a colon, a nonempty at-free run and
an at sign. -/
def tryUrlCred (_p : Bool) (l : List Char) : Option (Nat × List Char) :=
  if l.take 3 == "://".data then
    let r := l.drop 3
    let u := r.takeWhile (fun c => !(c == ':'))
    if u.length = 0 then none else
    match r.drop u.length with
    | ':' :: r2 =>
      let pw := r2.takeWhile (fun c => !(c == '@'))
      if pw.length = 0 then none else
      (match r2.drop pw.length with
       | '@' :: _ => some (u.length + pw.length + 4, "://[USER]:[PASS]@".data)
       | _ => none)
    | _ => none
  else none

/-- SecurityLogger.sanitize_message: the seven redaction rules applied in
source order, each as one global re.sub pass over the output of the
previous pass. -/
def sanitize_message (m : List Char) : List Char :=
  reSub trySecretAssign false
    (reSub tryUrlCred false
      (reSub tryBasic false
        (reSub tryBearer false
          (reSub tryKeyAssign false
            (reSub tryLongRun false
              (reSub tryJwt false m))))))

/-- Specification-side shape test: the whole string matches the claim
pattern eyJ[A-Za-z0-9._-]+. -/
def jwt_shaped (t : List Char) : Bool :=
  (t.take 3 == "eyJ".data) && !(t.drop 3 = []) && (t.drop 3).all isJwtChar

/-- SecurityLogger.mask_token, translated clause by clause. -/
def mask_token (t : List Char) : List Char :=
  if t = [] then "*[EMPTY]*".data
  else if t.length < 16 then List.replicate t.length '*'
  else t.take 8 ++ List.replicate (t.length - 16) '*' ++ t.drop (t.length - 8)

/-- Python string repr of a list of strings, as an f-string renders it:
brackets around comma-separated single-quoted items. -/
def pyReprList (xs : List (List Char)) : List Char :=
  '[' :: (List.intercalate ", ".data (xs.map (fun x => squote :: (x ++ [squote])))) ++ [']']

/-- ErrorSanitizer.STATUS_CODE_MESSAGES together with the dictionary get
default, as one total function on status codes. -/
def base_message (code : Nat) : List Char :=
  if code = 400 then "Invalid request parameters provided".data
  else if code = 401 then "Authentication failed - please check your access token".data
  else if code = 403 then "Access denied - insufficient permissions for this operation".data
  else if code = 404 then "Requested resource not found".data
  else if code = 408 then "Request timeout - the operation took too long".data
  else if code = 429 then "Rate limit exceeded - please wait before making more requests".data
  else if code = 500 then "Internal server error occurred".data
  else if code = 502 then "Bad gateway - upstream service unavailable".data
  else if code = 503 then "Service temporarily unavailable".data
  else if code = 504 then "Gateway timeout - upstream service did not respond".data
  else "HTTP error ".data ++ (Nat.repr code).data ++ " occurred".data

/-- Hint appended for 404 responses whose request path mentions devices. -/
def hint_404_devices : List Char :=
  ". The device ID may not exist in your Mender account.".data

/-- Hint appended for 404 responses whose request path mentions deployments
but not devices. -/
def hint_404_deployments : List Char :=
  ". The deployment ID may not exist or logs may not be available.".data

/-- Generic hint appended for all other 404 responses. -/
def hint_404_generic : List Char :=
  ". The requested endpoint may not be available in your Mender version.".data

/-- ErrorSanitizer.sanitize_http_error, translated branch by branch. The
response_text argument is received but never used, exactly as in the
source. -/
def sanitize_http_error (status_code : Nat) (_response_text : List Char)
    (original_url : List Char) : List Char :=
  let base := base_message status_code
  if status_code = 401 then
    base ++ ". Verify your Personal Access Token is valid and has appropriate permissions.".data
  else if status_code = 403 then
    base ++ ". Your token may lack required permissions (Device Management, Deployment Management).".data
  else if status_code = 404 then
    if pyContains "devices".data (lowerList original_url) then base ++ hint_404_devices
    else if pyContains "deployments".data (lowerList original_url) then base ++ hint_404_deployments
    else base ++ hint_404_generic
  else if status_code = 429 then
    base ++ ". The Mender API rate limit has been exceeded.".data
  else if 500 ≤ status_code then
    base ++ ". This appears to be a temporary issue with the Mender service.".data
  else base

/-- Acceptance test of the DeviceIdInput model: the pydantic field
constraints (length 1 to 128, pattern of identifier characters) together
with the extra field validator rejecting double dots and leading or
trailing slashes. The DeploymentIdInput model is character-for-character
identical. -/
def device_id_ok (s : List Char) : Bool :=
  decide (1 ≤ s.length) && decide (s.length ≤ 128) && s.all isIdChar &&
    !(pyContains "..".data s) && !(s.head? == some '/') && !(s.getLast? == some '/')

/-- Acceptance test of the LimitInput model: an integer between 1 and 500. -/
def limit_ok (n : Int) : Bool := decide (1 ≤ n) && decide (n ≤ 500)

/-- The closed set of status literals accepted by StatusInput. -/
def status_values : List (List Char) :=
  ["accepted".data, "rejected".data, "pending".data, "noauth".data,
   "inprogress".data, "finished".data]

/-- Acceptance test of the StatusInput model: exact match against the fixed
alternation. -/
def status_ok (s : List Char) : Bool := decide (s ∈ status_values)

/-- The value of min(limit, 1000) used by the audit-log operation. -/
def audit_per_page (limit : Int) : Int := if limit ≤ 1000 then limit else 1000

/-- The per_page query parameter get_audit_logs sends upstream: nothing for
a missing or falsy (zero) limit, otherwise min(limit, 1000). No limit value
is ever rejected on this path; there is no audit-log Input Validator in the
source. -/
def audit_params_per_page (limit : Option Int) : Option Int :=
  match limit with
  | none => none
  | some l => if l = 0 then none else some (audit_per_page l)

/-- The typed error of the API client, carrying a message and an optional
HTTP status code. -/
structure MenderAPIError where
  message : List Char
  status_code : Option Nat
deriving DecidableEq, Repr

/-- Outcome of one physical HTTP exchange, as the request primitive
distinguishes them: a successful body, an HTTP error status with its raw
response text, a network-level failure, or a JSON decoding failure. -/
inductive RequestOutcome where
  | success (body : List Char)
  | httpStatus (code : Nat) (body : List Char)
  | networkError (detail : List Char)
  | jsonError (detail : List Char)
deriving DecidableEq, Repr

/-- Fixed message raised on network-level request failures. -/
def net_error_msg : List Char :=
  "Request failed: Network error occurred while connecting to Mender API".data

/-- Fixed message raised on JSON decoding failures. -/
def parse_error_msg : List Char :=
  "Invalid response format received from Mender API".data

/-- MenderAPIClient._make_request error paths: HTTP failures surface the
classifier output for the status, body and url; network and parse failures
surface fixed literals. The raw detail never reaches the result. -/
def make_request (o : RequestOutcome) (url : List Char) :
    Except MenderAPIError (List Char) :=
  match o with
  | RequestOutcome.success body => Except.ok body
  | RequestOutcome.httpStatus code body =>
    Except.error ⟨sanitize_http_error code body url, some code⟩
  | RequestOutcome.networkError _ => Except.error ⟨net_error_msg, none⟩
  | RequestOutcome.jsonError _ => Except.error ⟨parse_error_msg, none⟩

/-- The message of the final fallback error in get_release: an f-string
interpolating the raw requested release name and the repr of the release
names found upstream. -/
def release_not_found_msg (name : List Char) (available : List (List Char)) : List Char :=
  "Release ".data ++ [squote] ++ name ++ [squote] ++
    " not found. Available releases: ".data ++ pyReprList available

/-- Upstream response of the device group endpoint: a JSON object with an
optional group field, or a non-object payload. -/
inductive GroupResponse where
  | obj (group : Option (List Char))
  | nonDict
deriving DecidableEq, Repr

/-- MenderAPIClient.get_device_group: the group field of a dict response,
and none both for group-less or non-dict payloads and for every
MenderAPIError, which the source swallows. -/
def get_device_group (r : Except MenderAPIError GroupResponse) : Option (List Char) :=
  match r with
  | Except.ok (GroupResponse.obj g) => g
  | Except.ok GroupResponse.nonDict => none
  | Except.error _ => none

/-- The v2 releases collection endpoint, tried first by get_releases. -/
def releases_v2 : List Char := "/api/management/v2/deployments/deployments/releases".data

/-- The v1 releases collection endpoint, the get_releases fallback. -/
def releases_v1 : List Char := "/api/management/v1/deployments/deployments/releases".data

/-- The v2 per-device deployment log endpoint. -/
def device_log_v2 (deployment_id device_id : List Char) : List Char :=
  "/api/management/v2/deployments/deployments/".data ++ deployment_id ++
    "/devices/".data ++ device_id ++ "/log".data

/-- The v1 per-device deployment log endpoint. -/
def device_log_v1 (deployment_id device_id : List Char) : List Char :=
  "/api/management/v1/deployments/deployments/".data ++ deployment_id ++
    "/devices/".data ++ device_id ++ "/log".data

/-- The audit-log endpoints in the order the source lists them: the v1
endpoint is the first entry and the v2 endpoint the second. -/
def audit_v1 : List Char := "/api/management/v1/auditlogs/logs".data

/-- The v2 audit-log endpoint, listed second in the source. -/
def audit_v2 : List Char := "/api/management/v2/auditlogs/logs".data

/-- The ordered endpoint list of get_audit_logs, verbatim from the source. -/
def audit_endpoints : List (List Char) := [audit_v1, audit_v2]

/-- One request against a responder that assigns an outcome to every
endpoint; errors are classified per attempt by the request primitive. -/
def http_result (respond : List Char → RequestOutcome) (ep : List Char) :
    Except MenderAPIError (List Char) :=
  make_request (respond ep) ep

/-- Endpoints attempted by the two-stage fallback of get_releases and
get_deployment_device_log: the newer endpoint, then the older one exactly
when the first attempt raised with status 404. -/
def fallback_attempts (respond : List Char → RequestOutcome)
    (first second : List Char) : List (List Char) :=
  match http_result respond first with
  | Except.ok _ => [first]
  | Except.error e => if e.status_code == some 404 then [first, second] else [first]

/-- Result of the two-stage fallback: the first response, or the second
attempt on a 404, or the propagated first error otherwise. -/
def fallback_result (respond : List Char → RequestOutcome)
    (first second : List Char) : Except MenderAPIError (List Char) :=
  match http_result respond first with
  | Except.ok d => Except.ok d
  | Except.error e =>
    if e.status_code == some 404 then http_result respond second else Except.error e

/-- Fixed message raised by get_audit_logs on a 403 from any attempt. -/
def audit_forbidden_msg : List Char :=
  "Insufficient permissions to access audit logs. Please ensure your Personal Access Token has audit log read permissions.".data

/-- Fixed message raised by get_audit_logs on a 401 from any attempt. -/
def audit_auth_msg : List Char :=
  "Authentication failed. Please check your Personal Access Token.".data

/-- Fixed message raised when every audit endpoint returned 404. -/
def audit_unavailable_msg : List Char :=
  "Audit logs API is not available for this Mender instance. This feature may not be supported in your Mender version or deployment.".data

/-- Fixed default message of the unreachable final raise in get_audit_logs. -/
def audit_failed_msg : List Char := "Failed to retrieve audit logs".data

/-- The endpoint loop of get_audit_logs, returning the attempted endpoints
and the result: 404 moves to the next endpoint, 403 and 401 raise fixed
messages, any other error propagates, and exhaustion raises the
unavailable message when the last error was a 404. -/
def audit_go (respond : List Char → RequestOutcome) :
    List (List Char) → Option MenderAPIError →
    (List (List Char) × Except MenderAPIError (List Char))
  | [], last =>
    ([], match last with
      | some e =>
        if e.status_code == some 404 then Except.error ⟨audit_unavailable_msg, some 404⟩
        else Except.error e
      | none => Except.error ⟨audit_failed_msg, none⟩)
  | ep :: rest, _ =>
    match http_result respond ep with
    | Except.ok d => ([ep], Except.ok d)
    | Except.error e =>
      if e.status_code == some 404 then
        let res := audit_go respond rest (some e)
        (ep :: res.1, res.2)
      else if e.status_code == some 403 then
        ([ep], Except.error ⟨audit_forbidden_msg, some 403⟩)
      else if e.status_code == some 401 then
        ([ep], Except.error ⟨audit_auth_msg, some 401⟩)
      else ([ep], Except.error e)

/-- Endpoints attempted by get_audit_logs for a given responder. -/
def audit_attempts (respond : List Char → RequestOutcome) : List (List Char) :=
  (audit_go respond audit_endpoints none).1

/-- Result of get_audit_logs for a given responder. -/
def audit_result (respond : List Char → RequestOutcome) :
    Except MenderAPIError (List Char) :=
  (audit_go respond audit_endpoints none).2

/-- Arguments of a tool call, mirroring the dictionary lookups performed by
the dispatcher. -/
structure ToolArgs where
  device_id : Option (List Char) := none
  deployment_id : Option (List Char) := none
  release_name : Option (List Char) := none
  status : Option (List Char) := none
  device_type : Option (List Char) := none
  name_filter : Option (List Char) := none
  tag : Option (List Char) := none
  limit : Option Int := none
  has_attribute : Option (List Char) := none
deriving DecidableEq, Repr

/-- The API client operation a tool call is mapped onto, together with the
argument values forwarded to it. -/
inductive ApiCall where
  | getDevice (id : List Char)
  | getDevices (status : Option (List Char)) (device_type : Option (List Char)) (limit : Int)
  | getDeployment (id : List Char)
  | getDeployments (status : Option (List Char)) (limit : Int)
  | getReleases (name_filter : Option (List Char)) (tag : Option (List Char)) (limit : Int)
  | getRelease (name_filter : List Char)
  | getDeviceInventory (id : List Char)
  | getDevicesInventory (limit : Int) (has_attribute : Option (List Char))
  | getInventoryGroups
  | getDeploymentDeviceLog (deployment_id device_id : List Char)
  | getDeploymentLogs (deployment_id : List Char)
deriving DecidableEq, Repr

/-- Dispatch result of call_tool: the upstream operation invoked, the
unknown-tool text path, or the generic exception path taken when a required
argument is missing from the dictionary. -/
inductive ToolDispatch where
  | call (c : ApiCall)
  | unknownTool (n : List Char)
  | keyError
deriving DecidableEq, Repr

/-- The dispatch chain of call_tool, translated branch by branch from the
source: every argument is read from the dictionary (with the defaults used
there) and handed directly to the client operation. -/
def call_tool_plan (name : List Char) (args : ToolArgs) : ToolDispatch :=
  if name == "get_device_status".data then
    match args.device_id with
    | some id => ToolDispatch.call (ApiCall.getDevice id)
    | none => ToolDispatch.keyError
  else if name == "list_devices".data then
    ToolDispatch.call (ApiCall.getDevices args.status args.device_type (args.limit.getD 20))
  else if name == "get_deployment_status".data then
    match args.deployment_id with
    | some id => ToolDispatch.call (ApiCall.getDeployment id)
    | none => ToolDispatch.keyError
  else if name == "list_deployments".data then
    ToolDispatch.call (ApiCall.getDeployments args.status (args.limit.getD 10))
  else if name == "list_releases".data then
    ToolDispatch.call (ApiCall.getReleases args.name_filter args.tag (args.limit.getD 20))
  else if name == "get_release_status".data then
    match args.release_name with
    | some n => ToolDispatch.call (ApiCall.getRelease n)
    | none => ToolDispatch.keyError
  else if name == "get_device_inventory".data then
    match args.device_id with
    | some id => ToolDispatch.call (ApiCall.getDeviceInventory id)
    | none => ToolDispatch.keyError
  else if name == "list_device_inventory".data then
    ToolDispatch.call (ApiCall.getDevicesInventory (args.limit.getD 20) args.has_attribute)
  else if name == "get_inventory_groups".data then
    ToolDispatch.call ApiCall.getInventoryGroups
  else if name == "get_deployment_device_log".data then
    match args.deployment_id, args.device_id with
    | some dep, some dev => ToolDispatch.call (ApiCall.getDeploymentDeviceLog dep dev)
    | _, _ => ToolDispatch.keyError
  else if name == "get_deployment_logs".data then
    match args.deployment_id with
    | some dep => ToolDispatch.call (ApiCall.getDeploymentLogs dep)
    | none => ToolDispatch.keyError
  else ToolDispatch.unknownTool name

/-- Argument dictionary holding only a device id. -/
def device_args (id : List Char) : ToolArgs :=
  ⟨some id, none, none, none, none, none, none, none, none⟩

/-- Argument dictionary holding a deployment id and a device id. -/
def dep_dev_args (dep dev : List Char) : ToolArgs :=
  ⟨some dev, some dep, none, none, none, none, none, none, none⟩

theorem pyContains_iff (n h : List Char) :
    pyContains n h = true ↔ ∃ p q, h = p ++ n ++ q := by
  constructor
  · intro hpc
    rcases List.any_eq_true.mp hpc with ⟨i, _, heq⟩
    have hd : (h.drop i).take n.length = n := by simpa using heq
    refine ⟨h.take i, (h.drop i).drop n.length, ?_⟩
    conv_lhs => rw [← List.take_append_drop i h,
      ← List.take_append_drop n.length (h.drop i)]
    rw [hd, List.append_assoc]
  · rintro ⟨p, q, rfl⟩
    apply List.any_eq_true.mpr
    refine ⟨p.length, ?_, ?_⟩
    · simp only [List.mem_range, List.length_append]
      omega
    · have h1 : (p ++ n ++ q).drop p.length = n ++ q := by
        rw [List.append_assoc]
        exact List.drop_left p (n ++ q)
      rw [h1]
      simp [List.take_left]

theorem pyContains_trans {a b c : List Char} (h1 : pyContains a b = true)
    (h2 : pyContains b c = true) : pyContains a c = true := by
  rcases (pyContains_iff a b).mp h1 with ⟨p, q, rfl⟩
  rcases (pyContains_iff _ c).mp h2 with ⟨r, s, rfl⟩
  apply (pyContains_iff a _).mpr
  exact ⟨r ++ p, q ++ s, by simp [List.append_assoc]⟩

theorem reSubF_nil (rule : Bool → List Char → Option (Nat × List Char))
    (f : Nat) (p : Bool) : reSubF rule f p [] = [] := by
  cases f <;> rfl

theorem reSubF_fuel (rule : Bool → List Char → Option (Nat × List Char)) :
    ∀ f g : Nat, ∀ (p : Bool) (l : List Char), l.length ≤ f → l.length ≤ g →
      reSubF rule f p l = reSubF rule g p l := by
  intro f
  induction f with
  | zero =>
    intro g p l hf _
    have hl : l = [] := by
      cases l with
      | nil => rfl
      | cons c cs => simp at hf
    subst hl
    rw [reSubF_nil, reSubF_nil]
  | succ f ih =>
    intro g p l hf hg
    cases l with
    | nil => rw [reSubF_nil, reSubF_nil]
    | cons c cs =>
      cases g with
      | zero => simp at hg
      | succ g2 =>
        simp only [reSubF]
        cases htry : rule p (c :: cs) with
        | some pr =>
          cases pr with
          | mk nn repl =>
            simp only
            congr 1
            apply ih
            · have hd : (cs.drop nn).length = cs.length - nn := List.length_drop nn cs
              simp only [List.length_cons] at hf
              omega
            · have hd : (cs.drop nn).length = cs.length - nn := List.length_drop nn cs
              simp only [List.length_cons] at hg
              omega
        | none =>
          simp only
          congr 1
          apply ih
          · simp only [List.length_cons] at hf
            omega
          · simp only [List.length_cons] at hg
            omega

theorem reSub_nil (rule : Bool → List Char → Option (Nat × List Char))
    (p : Bool) : reSub rule p [] = [] := rfl

theorem reSub_cons_none (rule : Bool → List Char → Option (Nat × List Char))
    (p : Bool) (c : Char) (cs : List Char) (h : rule p (c :: cs) = none) :
    reSub rule p (c :: cs) = c :: reSub rule (isWordChar c) cs := by
  show reSubF rule (c :: cs).length p (c :: cs) = _
  simp only [List.length_cons, reSubF, h]
  rfl

theorem reSub_cons_match (rule : Bool → List Char → Option (Nat × List Char))
    (p : Bool) (c : Char) (cs : List Char) (n : Nat) (repl : List Char)
    (h : rule p (c :: cs) = some (n, repl)) :
    reSub rule p (c :: cs) =
      repl ++ reSub rule (isWordChar ((c :: cs).getD n ' ')) (cs.drop n) := by
  show reSubF rule (c :: cs).length p (c :: cs) = _
  simp only [List.length_cons, reSubF, h]
  refine congrArg _ (reSubF_fuel rule cs.length (cs.drop n).length _ _ ?_ (le_refl _))
  rw [List.length_drop]
  omega

theorem tryJwt_none_of_no_J (p : Bool) (l : List Char) (h : 'J' ∉ l) :
    tryJwt p l = none := by
  unfold tryJwt
  split
  · rfl
  · split
    · exfalso
      apply h
      simp_all
    · rfl

theorem reSub_tryJwt_no_J (p : Bool) (l : List Char) (h : 'J' ∉ l) :
    reSub tryJwt p l = l := by
  induction l generalizing p with
  | nil => rfl
  | cons c cs ih =>
    rw [reSub_cons_none tryJwt p c cs (tryJwt_none_of_no_J _ _ h)]
    rw [ih (isWordChar c) (fun hc => h (List.mem_cons_of_mem _ hc))]

theorem takeWhile_all_eq {p : Char → Bool} {l : List Char}
    (h : ∀ x ∈ l, p x = true) : l.takeWhile p = l := by
  induction l with
  | nil => rfl
  | cons c cs ih =>
    rw [List.takeWhile_cons, if_pos (h c (List.mem_cons_self c cs))]
    rw [ih (fun x hx => h x (List.mem_cons_of_mem _ hx))]

theorem takeWhile_replicate_alnum (n : Nat) :
    (List.replicate n 'a').takeWhile isAlnumChar = List.replicate n 'a' := by
  apply takeWhile_all_eq
  intro x hx
  rw [List.eq_of_mem_replicate hx]
  decide

/-- Claim C5: mask_token is a total pure function: the empty string maps to
the sentinel, tokens of length 1 to 15 map to a same-length run of stars,
tokens of length at least 16 keep the first and last 8 characters around a
star run, and length is preserved for every nonempty token. -/
theorem mask_token_spec :
    mask_token [] = "*[EMPTY]*".data ∧
    (∀ t : List Char, t ≠ [] → t.length < 16 →
      mask_token t = List.replicate t.length '*') ∧
    (∀ t : List Char, 16 ≤ t.length →
      mask_token t = t.take 8 ++ List.replicate (t.length - 16) '*' ++ t.drop (t.length - 8)) ∧
    (∀ t : List Char, t ≠ [] → (mask_token t).length = t.length) := by
  refine ⟨rfl, ?_, ?_, ?_⟩
  · intro t ht hlen
    unfold mask_token
    rw [if_neg ht, if_pos hlen]
  · intro t hlen
    have ht : t ≠ [] := by
      intro h
      subst h
      simp at hlen
    unfold mask_token
    rw [if_neg ht, if_neg (by omega)]
  · intro t ht
    unfold mask_token
    rw [if_neg ht]
    by_cases h : t.length < 16
    · rw [if_pos h, List.length_replicate]
    · rw [if_neg h]
      simp only [List.length_append, List.length_take, List.length_replicate,
        List.length_drop]
      omega

/-- Witness for mask_token_spec at concrete tokens of length 5 and 36. -/
theorem mask_token_spec_witness :
    mask_token "short".data = List.replicate "short".data.length '*' ∧
    mask_token "eyJhbGciOiJIUzI1NiIsInR5cCI6IkpXVCJ9".data =
      "eyJhbGciOiJIUzI1NiIsInR5cCI6IkpXVCJ9".data.take 8 ++
        List.replicate ("eyJhbGciOiJIUzI1NiIsInR5cCI6IkpXVCJ9".data.length - 16) '*' ++
        "eyJhbGciOiJIUzI1NiIsInR5cCI6IkpXVCJ9".data.drop
          ("eyJhbGciOiJIUzI1NiIsInR5cCI6IkpXVCJ9".data.length - 8) ∧
    (mask_token "eyJhbGciOiJIUzI1NiIsInR5cCI6IkpXVCJ9".data).length =
      "eyJhbGciOiJIUzI1NiIsInR5cCI6IkpXVCJ9".data.length := by
  refine ⟨?_, ?_, ?_⟩
  · exact mask_token_spec.2.1 _ (by decide) (by decide)
  · exact mask_token_spec.2.2.1 _ (by decide)
  · exact mask_token_spec.2.2.2 _ (by decide)

/-- Claim C10: get_device_group returns the group field of an object
response, and none both for group-less or non-object payloads and for every
MenderAPIError regardless of its status code; the operation never
propagates an error. -/
theorem get_device_group_spec :
    (∀ msg code, get_device_group (Except.error ⟨msg, code⟩) = none) ∧
    (∀ g, get_device_group (Except.ok (GroupResponse.obj g)) = g) ∧
    get_device_group (Except.ok GroupResponse.nonDict) = none :=
  ⟨fun _ _ => rfl, fun _ => rfl, rfl⟩

/-- Claim C1 counterexample: the dispatcher maps get_device_status straight
onto the client operation with the raw traversal string, although the
device id validator rejects that string; no validation error is produced
and the upstream request is issued. -/
theorem dispatcher_no_validation_counterexample :
    call_tool_plan "get_device_status".data (device_args "../../../etc/passwd".data) =
      ToolDispatch.call (ApiCall.getDevice "../../../etc/passwd".data) ∧
    device_id_ok "../../../etc/passwd".data = false :=
  ⟨rfl, by decide⟩

/-- Claim C1 amended: the dispatcher applies no input validation at all;
every tool argument is forwarded verbatim to the API client operation. -/
theorem dispatcher_forwards_raw_arguments :
    (∀ id : List Char, call_tool_plan "get_device_status".data (device_args id) =
      ToolDispatch.call (ApiCall.getDevice id)) ∧
    (∀ dep dev : List Char,
      call_tool_plan "get_deployment_device_log".data (dep_dev_args dep dev) =
        ToolDispatch.call (ApiCall.getDeploymentDeviceLog dep dev)) :=
  ⟨fun _ => rfl, fun _ _ => rfl⟩

/-- Claim C7 counterexample: the final fallback error of get_release
interpolates the raw requested release name; for a JWT-shaped name the
surfaced message contains the credential verbatim, and the Message
Sanitizer would have altered the message, so it is neither a fixed literal
nor sanitizer output. -/
theorem release_error_raw_interpolation :
    pyContains "eyJhbGciOiJIUzI1NiI".data
      (release_not_found_msg "eyJhbGciOiJIUzI1NiI".data []) = true ∧
    sanitize_message (release_not_found_msg "eyJhbGciOiJIUzI1NiI".data []) ≠
      release_not_found_msg "eyJhbGciOiJIUzI1NiI".data [] :=
  ⟨by decide, by decide⟩

/-- Claim C7 amended: every error raised by the request primitive carries
either the per-attempt classifier output or one of two fixed literals, and
the network and parse messages do not depend on the raw exception detail;
the exception is the get_release fallback, which interpolates raw names. -/
theorem make_request_error_messages :
    (∀ code body url, make_request (RequestOutcome.httpStatus code body) url =
      Except.error ⟨sanitize_http_error code body url, some code⟩) ∧
    (∀ d1 d2 url, make_request (RequestOutcome.networkError d1) url =
      make_request (RequestOutcome.networkError d2) url) ∧
    (∀ d url, make_request (RequestOutcome.networkError d) url =
      Except.error ⟨net_error_msg, none⟩) ∧
    (∀ d url, make_request (RequestOutcome.jsonError d) url =
      Except.error ⟨parse_error_msg, none⟩) :=
  ⟨fun _ _ _ => rfl, fun _ _ _ => rfl, fun _ _ => rfl, fun _ _ => rfl⟩

/-- Claim C6 counterexample: a 404 on a path containing both deployments and
devices is classified with the device hint, because the devices check runs
first; the deployment hint claimed by the specification is absent. -/
theorem classify_404_mixed_path :
    sanitize_http_error 404 [] "/x/deployments/1/devices/2/log".data =
      base_message 404 ++ hint_404_devices ∧
    pyContains hint_404_deployments
      (sanitize_http_error 404 [] "/x/deployments/1/devices/2/log".data) = false ∧
    pyContains "deployments".data
      (lowerList "/x/deployments/1/devices/2/log".data) = true :=
  ⟨by decide, by decide, by decide⟩

/-- Claim C2: the classifier ignores the response body entirely, so its
output is identical for any two bodies; and for the five status codes of
the claim, a body containing the JWT prefix is never a substring of the
classified message. -/
theorem sanitize_http_error_body_independent :
    (∀ code b1 b2 url, sanitize_http_error code b1 url = sanitize_http_error code b2 url) ∧
    (∀ code body url, code ∈ ([401, 403, 404, 429, 500] : List Nat) →
      pyContains "eyJ".data body = true →
      pyContains body (sanitize_http_error code body url) = false) := by
  constructor
  · intro code b1 b2 url
    rfl
  · intro code body url hcode hbody
    have key : ∀ msg : List Char, pyContains "eyJ".data msg = false →
        pyContains body msg = false := by
      intro msg hmsg
      cases hpc : pyContains body msg with
      | false => rfl
      | true =>
        rw [pyContains_trans hbody hpc] at hmsg
        exact hmsg
    fin_cases hcode
    · have e : sanitize_http_error 401 body url = base_message 401 ++
          ". Verify your Personal Access Token is valid and has appropriate permissions.".data := rfl
      rw [e]
      exact key _ (by decide)
    · have e : sanitize_http_error 403 body url = base_message 403 ++
          ". Your token may lack required permissions (Device Management, Deployment Management).".data := rfl
      rw [e]
      exact key _ (by decide)
    · by_cases h1 : pyContains "devices".data (lowerList url) = true
      · have e : sanitize_http_error 404 body url = base_message 404 ++ hint_404_devices := by
          simp [sanitize_http_error, h1]
        rw [e]
        exact key _ (by decide)
      · rw [Bool.not_eq_true] at h1
        by_cases h2 : pyContains "deployments".data (lowerList url) = true
        · have e : sanitize_http_error 404 body url =
              base_message 404 ++ hint_404_deployments := by
            simp [sanitize_http_error, h1, h2]
          rw [e]
          exact key _ (by decide)
        · rw [Bool.not_eq_true] at h2
          have e : sanitize_http_error 404 body url =
              base_message 404 ++ hint_404_generic := by
            simp [sanitize_http_error, h1, h2]
          rw [e]
          exact key _ (by decide)
    · have e : sanitize_http_error 429 body url = base_message 429 ++
          ". The Mender API rate limit has been exceeded.".data := rfl
      rw [e]
      exact key _ (by decide)
    · have e : sanitize_http_error 500 body url = base_message 500 ++
          ". This appears to be a temporary issue with the Mender service.".data := rfl
      rw [e]
      exact key _ (by decide)

/-- Witness for sanitize_http_error_body_independent: a concrete JWT-shaped
body on the 401 path. -/
theorem sanitize_http_error_body_independent_witness :
    pyContains "eyJ".data "xeyJzz".data = true ∧
    pyContains "xeyJzz".data
      (sanitize_http_error 401 "xeyJzz".data "/api/test".data) = false :=
  ⟨by decide,
   sanitize_http_error_body_independent.2 401 "xeyJzz".data "/api/test".data
     (by decide) (by decide)⟩

/-- Claim C6 amended: the devices check takes precedence in the 404
classifier: any path containing devices (case-insensitively) receives the
device hint, even when it also contains deployments; a path containing
deployments but not devices receives the deployment hint; all other paths
receive the generic hint. The hints depend only on the request path, never
on the body. -/
theorem classify_404_path_hints :
    (∀ body url, pyContains "devices".data (lowerList url) = true →
      sanitize_http_error 404 body url = base_message 404 ++ hint_404_devices) ∧
    (∀ body url, pyContains "devices".data (lowerList url) = false →
      pyContains "deployments".data (lowerList url) = true →
      sanitize_http_error 404 body url = base_message 404 ++ hint_404_deployments) ∧
    (∀ body url, pyContains "devices".data (lowerList url) = false →
      pyContains "deployments".data (lowerList url) = false →
      sanitize_http_error 404 body url = base_message 404 ++ hint_404_generic) := by
  refine ⟨?_, ?_, ?_⟩
  · intro body url h1
    simp [sanitize_http_error, h1]
  · intro body url h1 h2
    simp [sanitize_http_error, h1, h2]
  · intro body url h1 h2
    simp [sanitize_http_error, h1, h2]

/-- Witness for classify_404_path_hints on the two concrete paths of the
repository test suite. -/
theorem classify_404_path_hints_witness :
    sanitize_http_error 404 "Not found".data "/api/devices/123".data =
      base_message 404 ++ hint_404_devices ∧
    sanitize_http_error 404 "Not found".data "/api/deployments/456".data =
      base_message 404 ++ hint_404_deployments :=
  ⟨classify_404_path_hints.1 _ _ (by decide),
   classify_404_path_hints.2.1 _ _ (by decide) (by decide)⟩

/-- Claim C8 counterexample: when every endpoint succeeds, the audit-log
operation contacts only the v1 endpoint; the v2 endpoint is never first and
never attempted, refuting the v2-first claim for the audit family. -/
theorem audit_attempts_v1_first :
    audit_attempts (fun _ => RequestOutcome.success "[]".data) = [audit_v1] ∧
    audit_v1 ≠ audit_v2 ∧
    audit_v2 ∉ audit_attempts (fun _ => RequestOutcome.success "[]".data) :=
  ⟨rfl, by decide, by decide⟩

/-- Claim C8 amended: the releases and per-device deployment log operations
attempt the v2 endpoint first and issue the v1 request exactly when the v2
attempt failed with status 404, propagating any other error without a
second attempt; the audit-log operation instead attempts v1 before v2, with
the same 404-only fallback between them. The classifier runs per attempt
inside the request primitive. -/
theorem versioned_fallback_spec :
    (∀ respond d, http_result respond releases_v2 = Except.ok d →
      fallback_attempts respond releases_v2 releases_v1 = [releases_v2]) ∧
    (∀ respond e, http_result respond releases_v2 = Except.error e →
      e.status_code = some 404 →
      fallback_attempts respond releases_v2 releases_v1 = [releases_v2, releases_v1] ∧
      fallback_result respond releases_v2 releases_v1 = http_result respond releases_v1) ∧
    (∀ respond e, http_result respond releases_v2 = Except.error e →
      e.status_code ≠ some 404 →
      fallback_attempts respond releases_v2 releases_v1 = [releases_v2] ∧
      fallback_result respond releases_v2 releases_v1 = Except.error e) ∧
    (∀ dep dev respond e,
      http_result respond (device_log_v2 dep dev) = Except.error e →
      e.status_code = some 404 →
      fallback_attempts respond (device_log_v2 dep dev) (device_log_v1 dep dev) =
        [device_log_v2 dep dev, device_log_v1 dep dev]) ∧
    (∀ dep dev respond e,
      http_result respond (device_log_v2 dep dev) = Except.error e →
      e.status_code ≠ some 404 →
      fallback_attempts respond (device_log_v2 dep dev) (device_log_v1 dep dev) =
        [device_log_v2 dep dev]) ∧
    (∀ respond, (audit_attempts respond).head? = some audit_v1) ∧
    (∀ respond d, http_result respond audit_v1 = Except.ok d →
      audit_attempts respond = [audit_v1]) ∧
    (∀ respond e, http_result respond audit_v1 = Except.error e →
      e.status_code = some 404 → audit_v2 ∈ audit_attempts respond) := by
  refine ⟨?_, ?_, ?_, ?_, ?_, ?_, ?_, ?_⟩
  · intro respond d h
    simp [fallback_attempts, h]
  · intro respond e h h404
    constructor
    · simp [fallback_attempts, h, h404]
    · simp [fallback_result, h, h404]
  · intro respond e h h404
    constructor
    · simp [fallback_attempts, h, h404]
    · simp [fallback_result, h, h404]
  · intro dep dev respond e h h404
    simp [fallback_attempts, h, h404]
  · intro dep dev respond e h h404
    simp [fallback_attempts, h, h404]
  · intro respond
    unfold audit_attempts audit_endpoints
    cases h : http_result respond audit_v1 with
    | ok d => simp [audit_go, h]
    | error e =>
      simp only [audit_go, h]
      split
      · cases h2 : http_result respond audit_v2 with
        | ok d => simp [audit_go, h2]
        | error e2 =>
          simp only [audit_go, h2]
          split
          · simp [audit_go]
          · split
            · simp
            · split
              · simp
              · simp
      · split
        · simp
        · split
          · simp
          · simp
  · intro respond d h
    simp [audit_attempts, audit_endpoints, audit_go, h]
  · intro respond e h h404
    unfold audit_attempts audit_endpoints
    cases h2 : http_result respond audit_v2 with
    | ok d => simp [audit_go, h, h404, h2]
    | error e2 =>
      by_cases h24 : e2.status_code = some 404
      · simp [audit_go, h, h404, h2, h24]
      · by_cases h23 : e2.status_code = some 403
        · simp [audit_go, h, h404, h2, h24, h23]
        · by_cases h21 : e2.status_code = some 401
          · simp [audit_go, h, h404, h2, h24, h23, h21]
          · simp [audit_go, h, h404, h2, h24, h23, h21]

/-- Witness for versioned_fallback_spec: a responder that returns 404 on the
v2 releases endpoint makes the client issue the v1 request as the second
attempt. -/
theorem versioned_fallback_spec_witness :
    fallback_attempts (fun _ => RequestOutcome.httpStatus 404 "x".data)
      releases_v2 releases_v1 = [releases_v2, releases_v1] :=
  (versioned_fallback_spec.2.1 (fun _ => RequestOutcome.httpStatus 404 "x".data)
    ⟨sanitize_http_error 404 "x".data releases_v2, some 404⟩ rfl rfl).1

/-- Claim C9 counterexample: there is no audit-log Input Validator. A limit
of 1500, which violates the claimed 1 to 1000 range, is not rejected on the
audit path: the request proceeds with per_page silently capped to 1000. A
negative limit is not rejected either and is forwarded uncapped, so the
sent per_page lies outside the closed range 1 to 1000. The 1 to 500
validator, which would reject 1500, is not applied on this path. -/
theorem audit_limit_not_rejected :
    audit_params_per_page (some 1500) = some 1000 ∧
    audit_params_per_page (some (-5)) = some (-5) ∧
    ¬(1 ≤ (-5 : Int) ∧ (-5 : Int) ≤ 1000) ∧
    limit_ok 1500 = false :=
  ⟨by decide, by decide, by decide, by decide⟩

/-- Claim C9 amended: values accepted by the identifier validator are
exactly those satisfying the Validated Input invariant (identifier charset,
length 1 to 128, no double dot, no leading or trailing slash), with the
concrete acceptance and rejection examples of the specification; limits
checked by LimitInput are accepted exactly in 1 to 500; status filters are
exactly the fixed literal set. The audit-log endpoint has no validator and
rejects nothing: every nonzero provided limit is forwarded as
min(limit, 1000), which lies in 1 to 1000 for positive limits but passes
negative limits through unchanged. -/
theorem input_validators_spec :
    (∀ s : List Char, device_id_ok s = true ↔
      (1 ≤ s.length ∧ s.length ≤ 128 ∧ (∀ c ∈ s, isIdChar c = true) ∧
        pyContains "..".data s = false ∧ s.head? ≠ some '/' ∧ s.getLast? ≠ some '/')) ∧
    (∀ l : Int, 1 ≤ l → audit_params_per_page (some l) = some (audit_per_page l) ∧
      1 ≤ audit_per_page l ∧ audit_per_page l ≤ 1000) ∧
    (∀ l : Int, l < 0 → audit_params_per_page (some l) = some (audit_per_page l) ∧
      audit_per_page l = l) ∧
    (∀ n : Int, limit_ok n = true ↔ (1 ≤ n ∧ n ≤ 500)) ∧
    (∀ s : List Char, status_ok s = true ↔ s ∈ status_values) ∧
    device_id_ok "../../../etc/passwd".data = false ∧
    device_id_ok "a/b".data = false ∧
    device_id_ok (List.replicate 200 'a') = false ∧
    device_id_ok "device<script>alert(1)</script>".data = false ∧
    device_id_ok "valid-device-123".data = true ∧
    limit_ok 0 = false ∧ limit_ok 1000 = false ∧ limit_ok 1 = true ∧ limit_ok 500 = true := by
  refine ⟨?_, ?_, ?_, ?_, ?_, by decide, by decide, by decide, by decide, by decide,
    by decide, by decide, by decide, by decide⟩
  · intro s
    simp only [device_id_ok, Bool.and_eq_true, decide_eq_true_eq, List.all_eq_true,
      Bool.not_eq_true', beq_eq_false_iff_ne, ne_eq]
    constructor
    · rintro ⟨⟨⟨⟨⟨h1, h2⟩, h3⟩, h4⟩, h5⟩, h6⟩
      exact ⟨h1, h2, h3, h4, h5, h6⟩
    · rintro ⟨h1, h2, h3, h4, h5, h6⟩
      exact ⟨⟨⟨⟨⟨h1, h2⟩, h3⟩, h4⟩, h5⟩, h6⟩
  · intro l h
    have h0 : ¬(l = 0) := by omega
    refine ⟨?_, ?_, ?_⟩
    · simp only [audit_params_per_page]
      rw [if_neg h0]
    · unfold audit_per_page
      split <;> omega
    · unfold audit_per_page
      split <;> omega
  · intro l h
    have h0 : ¬(l = 0) := by omega
    refine ⟨?_, ?_⟩
    · simp only [audit_params_per_page]
      rw [if_neg h0]
    · unfold audit_per_page
      rw [if_pos (by omega)]
  · intro n
    simp [limit_ok]
  · intro s
    simp [status_ok]

/-- Witness for input_validators_spec: the audit path at the out-of-range
limit 1500 (capped, in range) and at the negative limit -5 (forwarded
unchanged). -/
theorem input_validators_spec_witness :
    (1 ≤ (1500 : Int) ∧
      (audit_params_per_page (some 1500) = some (audit_per_page 1500) ∧
        1 ≤ audit_per_page 1500 ∧ audit_per_page 1500 ≤ 1000)) ∧
    ((-5 : Int) < 0 ∧
      (audit_params_per_page (some (-5)) = some (audit_per_page (-5)) ∧
        audit_per_page (-5) = -5)) :=
  ⟨⟨by decide, input_validators_spec.2.1 1500 (by decide)⟩,
   ⟨by decide, input_validators_spec.2.2.1 (-5) (by decide)⟩⟩

/-- Claim C3 counterexample: a JWT-shaped substring whose first character is
preceded by a word character is not at a word boundary, so the anchored
pattern of the code does not match it and it survives sanitization
verbatim. -/
theorem jwt_unanchored_survives :
    sanitize_message "XeyJsecret".data = "XeyJsecret".data ∧
    jwt_shaped "eyJsecret".data = true ∧
    pyContains "eyJsecret".data "XeyJsecret".data = true ∧
    pyContains "eyJsecret".data (sanitize_message "XeyJsecret".data) = true :=
  ⟨by decide, by decide, by decide, by decide⟩

/-- Claim C3 amended: redaction of a JWT-shaped substring requires the word
boundary of the anchored pattern; every maximal JWT-shaped string standing
at a word boundary is replaced, shown here for the whole-message family:
for every nonempty run of token characters, the message consisting of eyJ
followed by that run sanitizes to the fixed placeholder, so the credential
does not survive. -/
theorem jwt_anchored_redacted :
    ∀ r : List Char, r ≠ [] → r.all isJwtChar = true →
      sanitize_message ('e' :: 'y' :: 'J' :: r) = "[JWT_TOKEN]".data := by
  intro r hne hall
  have hrun : r.takeWhile isJwtChar = r :=
    takeWhile_all_eq (List.all_eq_true.mp hall)
  have htry : tryJwt false ('e' :: 'y' :: 'J' :: r) =
      some (r.length + 2, "[JWT_TOKEN]".data) := by
    show (if r.takeWhile isJwtChar = [] then none
      else some ((r.takeWhile isJwtChar).length + 2, "[JWT_TOKEN]".data)) = _
    rw [hrun, if_neg hne]
  have step := reSub_cons_match tryJwt false 'e' ('y' :: 'J' :: r)
    (r.length + 2) "[JWT_TOKEN]".data htry
  have hdrop : ('y' :: 'J' :: r).drop (r.length + 2) = [] := by
    have hlen : ('y' :: 'J' :: r).length = r.length + 2 := by simp
    rw [← hlen, List.drop_length]
  rw [hdrop, reSub_nil, List.append_nil] at step
  unfold sanitize_message
  rw [step]
  decide

/-- Witness for jwt_anchored_redacted at the concrete run hbGci. -/
theorem jwt_anchored_redacted_witness :
    sanitize_message "eyJhbGci".data = "[JWT_TOKEN]".data :=
  jwt_anchored_redacted "hbGci".data (by decide) (by decide)

/-- Claim C4 counterexample: a Bearer header value whose token is a bare
32-character alphanumeric run is consumed by the generic long-run rule
before the Bearer rule is reached, so the output renders it as the API-key
placeholder and the claimed Bearer placeholder never appears. -/
theorem bearer_long_token_not_token_tag :
    sanitize_message ("Bearer ".data ++ List.replicate 32 'a') = "Bearer [API_KEY]".data ∧
    pyContains "Bearer [TOKEN]".data
      (sanitize_message ("Bearer ".data ++ List.replicate 32 'a')) = false :=
  ⟨by decide, by decide⟩

/-- Claim C4 amended: the generic rule for bare alphanumeric runs of length
at least 32 is applied second, immediately after the JWT rule and before
the Bearer rule, so it consumes a long bare Bearer token: for every run of
at least 32 characters the header value renders as Bearer followed by the
API-key placeholder, while a shorter bare token renders as Bearer followed
by the token placeholder. -/
theorem generic_rule_before_bearer :
    (∀ k : Nat, sanitize_message ("Bearer ".data ++ List.replicate (k + 32) 'a') =
      "Bearer [API_KEY]".data) ∧
    sanitize_message "Bearer abc123def456ghi789".data = "Bearer [TOKEN]".data := by
  refine ⟨?_, by decide⟩
  intro k
  have hJ : 'J' ∉ ("Bearer ".data ++ List.replicate (k + 32) 'a') := by
    intro hm
    rcases List.mem_append.mp hm with hcon | hrep
    · exact absurd hcon (by decide)
    · exact absurd (List.eq_of_mem_replicate hrep) (by decide)
  have n0 : tryLongRun false
      ('B' :: 'e' :: 'a' :: 'r' :: 'e' :: 'r' :: ' ' :: List.replicate (k + 32) 'a') =
      none := rfl
  have n1 : tryLongRun (isWordChar 'B')
      ('e' :: 'a' :: 'r' :: 'e' :: 'r' :: ' ' :: List.replicate (k + 32) 'a') = none := rfl
  have n2 : tryLongRun (isWordChar 'e')
      ('a' :: 'r' :: 'e' :: 'r' :: ' ' :: List.replicate (k + 32) 'a') = none := rfl
  have n3 : tryLongRun (isWordChar 'a')
      ('r' :: 'e' :: 'r' :: ' ' :: List.replicate (k + 32) 'a') = none := rfl
  have n4 : tryLongRun (isWordChar 'r')
      ('e' :: 'r' :: ' ' :: List.replicate (k + 32) 'a') = none := rfl
  have n5 : tryLongRun (isWordChar 'e')
      ('r' :: ' ' :: List.replicate (k + 32) 'a') = none := rfl
  have n6 : tryLongRun (isWordChar 'r')
      (' ' :: List.replicate (k + 32) 'a') = none := rfl
  have hrep : List.replicate (k + 32) 'a' = 'a' :: List.replicate (k + 31) 'a' := rfl
  have hdrop : (List.replicate (k + 31) 'a').drop (k + 31) = [] := by
    apply List.drop_eq_nil_of_le
    rw [List.length_replicate]
  have htw : ('a' :: List.replicate (k + 31) 'a').takeWhile isAlnumChar =
      'a' :: List.replicate (k + 31) 'a' := by
    rw [List.takeWhile_cons, if_pos (show isAlnumChar 'a' = true from rfl),
      takeWhile_replicate_alnum]
  have m : tryLongRun (isWordChar ' ') ('a' :: List.replicate (k + 31) 'a') =
      some (k + 31, "[API_KEY]".data) := by
    unfold tryLongRun
    rw [if_neg (show ¬(isWordChar ' ' = true) from by decide)]
    simp only [htw, List.length_cons, List.length_replicate]
    rw [if_neg (show ¬(k + 31 + 1 < 32) from by omega)]
    rw [List.drop_succ_cons, hdrop]
    rfl
  have p2 : reSub tryLongRun false
      ('B' :: 'e' :: 'a' :: 'r' :: 'e' :: 'r' :: ' ' :: List.replicate (k + 32) 'a') =
      "Bearer [API_KEY]".data := by
    rw [reSub_cons_none _ _ _ _ n0, reSub_cons_none _ _ _ _ n1,
      reSub_cons_none _ _ _ _ n2, reSub_cons_none _ _ _ _ n3,
      reSub_cons_none _ _ _ _ n4, reSub_cons_none _ _ _ _ n5,
      reSub_cons_none _ _ _ _ n6, hrep, reSub_cons_match _ _ _ _ _ _ m,
      hdrop, reSub_nil, List.append_nil]
  have p1 : reSub tryJwt false ("Bearer ".data ++ List.replicate (k + 32) 'a') =
      "Bearer ".data ++ List.replicate (k + 32) 'a' := reSub_tryJwt_no_J false _ hJ
  unfold sanitize_message
  rw [p1]
  have p2a : reSub tryLongRun false ("Bearer ".data ++ List.replicate (k + 32) 'a') =
      "Bearer [API_KEY]".data := p2
  rw [p2a]
  decide
